import Mathlib

/-!
Shallow embedding of the transaction-identity and lock substrate of
`foedus-core/include/foedus/xct/xct_id.hpp`.

Machine words (`uint64_t`, `uint32_t`, `uint16_t`) are embedded as `Nat`,
with an explicit `% 2 ^ w` wherever the C++ code truncates (casts,
wrap-around arithmetic).  Bit operations (`&`, `|`, `~`, shifts) are
embedded as the corresponding `Nat` bitwise operations; the 64-bit
complement `~m` becomes `(2 ^ 64 - 1) ^^^ m`.

The `Epoch` comparison (`foedus/epoch.hpp`) is not part of the sources
at hand; it is modelled from the specification, see `foedus.Epoch.epochBefore`.
-/

set_option maxRecDepth 8192

namespace foedus

namespace Epoch

/-- Source `Epoch::kEpochInvalid = 0`: the distinguished invalid epoch value. -/
def kEpochInvalid : Nat := 0

/-- The 28-bit epoch wraps around at `2^28`. -/
def kEpochIntOverflow : Nat := 2 ^ 28

/-- Half of the epoch ring, used by the wrap-around comparison. -/
def kEpochIntHalf : Nat := 2 ^ 27

/-- Modelled from the spec: `foedus::Epoch::before` (and `operator<`), whose
implementation (`foedus/epoch.hpp`) is missing from the sources at hand.
The spec states the wrap-around half-space rule "`a < b` iff
`(b − a) mod 2²⁸ < 2²⁷`", with "Zero ... a distinguished invalid value outside
the cyclic order", and the documentation in `xct_id.hpp` states "An invalid
epoch is *before* everything else". -/
def epochBefore (a b : Nat) : Bool :=
  if a = kEpochInvalid then true
  else if b = kEpochInvalid then false
  else decide ((b + kEpochIntOverflow - a) % kEpochIntOverflow < kEpochIntHalf)

end Epoch

namespace xct

/-- Source `kXctIdDeletedBit = 1ULL << 63`. -/
def kXctIdDeletedBit : Nat := 1 <<< 63

/-- Source `kXctIdMovedBit = 1ULL << 62`. -/
def kXctIdMovedBit : Nat := 1 <<< 62

/-- Source `kXctIdBeingWrittenBit = 1ULL << 61`. -/
def kXctIdBeingWrittenBit : Nat := 1 <<< 61

/-- Source `kXctIdNextLayerBit = 1ULL << 60`. -/
def kXctIdNextLayerBit : Nat := 1 <<< 60

/-- Source `kXctIdMaskSerializer = 0x0FFFFFFFFFFFFFFFULL`. -/
def kXctIdMaskSerializer : Nat := 0x0FFFFFFFFFFFFFFF

/-- Source `kXctIdMaskEpoch = 0x0FFFFFFF00000000ULL`. -/
def kXctIdMaskEpoch : Nat := 0x0FFFFFFF00000000

/-- Source `kXctIdMaskOrdinal = 0x00000000FFFFFFFFULL`. -/
def kXctIdMaskOrdinal : Nat := 0x00000000FFFFFFFF

/-- Source `kMaxXctOrdinal = (1ULL << 24) - 1U`. -/
def kMaxXctOrdinal : Nat := (1 <<< 24) - 1

/-- The C++ 64-bit complement `~m` on `uint64_t`. -/
def compl64 (m : Nat) : Nat := (2 ^ 64 - 1) ^^^ m

/-- Source `XctId`: the persistent-status half of a TID, one `uint64_t` word. -/
structure XctId where
  data_ : Nat
deriving DecidableEq, Repr

namespace XctId

/-- Source `XctId::get_epoch_int`: `(data_ & kXctIdMaskEpoch) >> 32`. -/
def get_epoch_int (x : XctId) : Nat := (x.data_ &&& kXctIdMaskEpoch) >>> 32

/-- Source `XctId::is_valid`: `get_epoch_int() != Epoch::kEpochInvalid`. -/
def is_valid (x : XctId) : Bool := decide (x.get_epoch_int ≠ Epoch.kEpochInvalid)

/-- Source `XctId::get_ordinal`: `static_cast<uint32_t>(data_)`, i.e. the low 32 bits. -/
def get_ordinal (x : XctId) : Nat := x.data_ % 2 ^ 32

/-- Source `XctId::set_ordinal`: `data_ = (data_ & (~kXctIdMaskOrdinal)) | ordinal`.
The argument is a `uint32_t`, hence the `% 2 ^ 32` at the call boundary. -/
def set_ordinal (x : XctId) (ordinal : Nat) : XctId :=
  ⟨(x.data_ &&& compl64 kXctIdMaskOrdinal) ||| (ordinal % 2 ^ 32)⟩

/-- Source `XctId::set_epoch_int`:
`data_ = (data_ & ~kXctIdMaskEpoch) | (static_cast<uint64_t>(epoch_int) << 32)`.
The argument is a `uint32_t` `EpochInteger`, hence the `% 2 ^ 32`. -/
def set_epoch_int (x : XctId) (epoch_int : Nat) : XctId :=
  ⟨(x.data_ &&& compl64 kXctIdMaskEpoch) ||| ((epoch_int % 2 ^ 32) <<< 32)⟩

/-- Source `XctId::increment_ordinal`: `set_ordinal(get_ordinal() + 1U)` (`uint32_t`
arithmetic; the wrap at `2^32` is absorbed by `set_ordinal`'s truncation). -/
def increment_ordinal (x : XctId) : XctId := x.set_ordinal (x.get_ordinal + 1)

/-- Source `XctId::set`: `data_ = static_cast<uint64_t>(epoch_int) << 32 | ordinal`. -/
def set (epoch_int ordinal : Nat) : XctId :=
  ⟨((epoch_int % 2 ^ 32) <<< 32) ||| (ordinal % 2 ^ 32)⟩

/-- Source `XctId::set_being_written`: `data_ |= kXctIdBeingWrittenBit`. -/
def set_being_written (x : XctId) : XctId := ⟨x.data_ ||| kXctIdBeingWrittenBit⟩

/-- Source `XctId::set_write_complete`: `data_ &= (~kXctIdBeingWrittenBit)`. -/
def set_write_complete (x : XctId) : XctId := ⟨x.data_ &&& compl64 kXctIdBeingWrittenBit⟩

/-- Source `XctId::set_deleted`: `data_ |= kXctIdDeletedBit`. -/
def set_deleted (x : XctId) : XctId := ⟨x.data_ ||| kXctIdDeletedBit⟩

/-- Source `XctId::set_notdeleted`: `data_ &= (~kXctIdDeletedBit)`. -/
def set_notdeleted (x : XctId) : XctId := ⟨x.data_ &&& compl64 kXctIdDeletedBit⟩

/-- Source `XctId::set_moved`: `data_ |= kXctIdMovedBit`. -/
def set_moved (x : XctId) : XctId := ⟨x.data_ ||| kXctIdMovedBit⟩

/-- Source `XctId::set_next_layer`: `data_ = (data_ & (~kXctIdDeletedBit)) | kXctIdNextLayerBit`. -/
def set_next_layer (x : XctId) : XctId :=
  ⟨(x.data_ &&& compl64 kXctIdDeletedBit) ||| kXctIdNextLayerBit⟩

/-- Source `XctId::is_being_written`: `(data_ & kXctIdBeingWrittenBit) != 0`. -/
def is_being_written (x : XctId) : Bool := decide (x.data_ &&& kXctIdBeingWrittenBit ≠ 0)

/-- Source `XctId::is_deleted`: `(data_ & kXctIdDeletedBit) != 0`. -/
def is_deleted (x : XctId) : Bool := decide (x.data_ &&& kXctIdDeletedBit ≠ 0)

/-- Source `XctId::is_moved`: `(data_ & kXctIdMovedBit) != 0`. -/
def is_moved (x : XctId) : Bool := decide (x.data_ &&& kXctIdMovedBit ≠ 0)

/-- Source `XctId::is_next_layer`: `(data_ & kXctIdNextLayerBit) != 0`. -/
def is_next_layer (x : XctId) : Bool := decide (x.data_ &&& kXctIdNextLayerBit ≠ 0)

/-- Source `XctId::needs_track_moved`: `(data_ & (kXctIdMovedBit | kXctIdNextLayerBit)) != 0`. -/
def needs_track_moved (x : XctId) : Bool :=
  decide (x.data_ &&& (kXctIdMovedBit ||| kXctIdNextLayerBit) ≠ 0)

/-- Source `XctId::compare_epoch_and_orginal` (sic): epoch comparison by the engine's
wrap-around order (`Epoch::operator<` is the half-space rule), then ordinal. -/
def compare_epoch_and_orginal (x other : XctId) : Int :=
  if x.get_epoch_int ≠ other.get_epoch_int then
    if Epoch.epochBefore x.get_epoch_int other.get_epoch_int then -1 else 1
  else
    if x.get_ordinal < other.get_ordinal then -1
    else if x.get_ordinal > other.get_ordinal then 1
    else 0

/-- Source `XctId::before`: compare epoch (wrap-aware), then ordinal. -/
def before (x other : XctId) : Bool :=
  if x.get_epoch_int ≠ other.get_epoch_int then
    Epoch.epochBefore x.get_epoch_int other.get_epoch_int
  else
    decide (x.get_ordinal < other.get_ordinal)

/-- Source `XctId::store_max`: if `other` is valid and `before(other)`, become `other`. -/
def store_max (x other : XctId) : XctId :=
  if ¬ other.is_valid then x
  else if x.before other then other else x

/-- Source `XctId::clear_status_bits`: `data_ &= kXctIdMaskSerializer`. -/
def clear_status_bits (x : XctId) : XctId := ⟨x.data_ &&& kXctIdMaskSerializer⟩

end XctId

/-- Source `McsLock`: the 8-byte exclusive MCS lock word (`data_` is `uint32_t`). -/
structure McsLock where
  data_ : Nat
  unused_ : Nat
deriving DecidableEq, Repr

namespace McsLock

/-- Source `McsLock::is_locked`: `(data_ & 0xFFFFU) != 0`. -/
def is_locked (l : McsLock) : Bool := decide (l.data_ &&& 0xFFFF ≠ 0)

/-- Source `McsLock::get_tail_waiter`: `data_ >> 16U`. -/
def get_tail_waiter (l : McsLock) : Nat := l.data_ >>> 16

/-- Source `McsLock::get_tail_waiter_block`: `data_ & 0xFFFFU`. -/
def get_tail_waiter_block (l : McsLock) : Nat := l.data_ &&& 0xFFFF

/-- Source `McsLock::to_int`:
`static_cast<uint32_t>(tail_waiter) << 16 | (tail_waiter_block & 0xFFFFU)`.
`tail_waiter` is a `uint16_t` `ThreadId`, hence the `% 2 ^ 16`; the result
is a `uint32_t`, hence the `% 2 ^ 32`. -/
def to_int (tail_waiter tail_waiter_block : Nat) : Nat :=
  (((tail_waiter % 2 ^ 16) <<< 16) ||| (tail_waiter_block &&& 0xFFFF)) % 2 ^ 32

/-- Source `McsLock::reset()`: `data_ = 0`. -/
def reset (l : McsLock) : McsLock := ⟨0, l.unused_⟩

end McsLock

/-- Source `McsRwLock::kNextWriterNone = 0xFFFFU`. -/
def kNextWriterNone : Nat := 0xFFFF

/-- Source `McsRwLock`: the 8-byte reader-writer MCS lock word
(`tail_` is `uint32_t`, `next_writer_` a `uint16_t` thread id,
`readers_count_` a `uint16_t`). -/
structure McsRwLock where
  tail_ : Nat
  next_writer_ : Nat
  readers_count_ : Nat
deriving DecidableEq, Repr

namespace McsRwLock

/-- Source `McsRwLock::reset`: `tail_ = readers_count_ = 0; next_writer_ = kNextWriterNone`. -/
def reset (_l : McsRwLock) : McsRwLock :=
  { tail_ := 0, next_writer_ := kNextWriterNone, readers_count_ := 0 }

/-- Source `McsRwLock::increment_readers_count`:
`raw_atomic_fetch_add<uint16_t>(&readers_count_, 1)`, result discarded. -/
def increment_readers_count (l : McsRwLock) : McsRwLock :=
  { l with readers_count_ := (l.readers_count_ + 1) % 2 ^ 16 }

/-- Source `McsRwLock::decrement_readers_count`:
`return raw_atomic_fetch_add<uint16_t>(&readers_count_, -1)` — adds `0xFFFF`
modulo `2^16` (i.e. subtracts one) and returns the value held *before*. -/
def decrement_readers_count (l : McsRwLock) : McsRwLock × Nat :=
  ({ l with readers_count_ := (l.readers_count_ + 2 ^ 16 - 1) % 2 ^ 16 },
   l.readers_count_)

/-- Source `McsRwLock::is_locked`: `(tail_ & 0xFFFFU) != 0`. -/
def is_locked (l : McsRwLock) : Bool := decide (l.tail_ &&& 0xFFFF ≠ 0)

/-- Source `McsRwLock::get_tail_waiter_block`: `tail_ & 0xFFFFU`. -/
def get_tail_waiter_block (l : McsRwLock) : Nat := l.tail_ &&& 0xFFFF

/-- Source `McsRwLock::get_tail_waiter`: `tail_ >> 16U`. -/
def get_tail_waiter (l : McsRwLock) : Nat := l.tail_ >>> 16

/-- Source `McsRwLock::has_next_writer`: `next_writer_ != kNextWriterNone`. -/
def has_next_writer (l : McsRwLock) : Bool := decide (l.next_writer_ ≠ kNextWriterNone)

end McsRwLock

/-- Source `RwLockableXctId`: `McsRwLock` half followed by `XctId` half. -/
structure RwLockableXctId where
  lock_ : McsRwLock
  xct_id_ : XctId
deriving DecidableEq, Repr

namespace RwLockableXctId

/-- Source `RwLockableXctId::reset`: `lock_.reset(); xct_id_.data_ = 0;`. -/
def reset (s : RwLockableXctId) : RwLockableXctId :=
  { lock_ := s.lock_.reset, xct_id_ := ⟨0⟩ }

/-- Source `RwLockableXctId::is_keylocked`: `lock_.is_locked()`. -/
def is_keylocked (s : RwLockableXctId) : Bool := s.lock_.is_locked

/-- Source `RwLockableXctId::is_deleted`: `xct_id_.is_deleted()`. -/
def is_deleted (s : RwLockableXctId) : Bool := s.xct_id_.is_deleted

/-- Source `RwLockableXctId::is_next_layer`: `xct_id_.is_next_layer()`. -/
def is_next_layer (s : RwLockableXctId) : Bool := s.xct_id_.is_next_layer

end RwLockableXctId

end xct

end foedus

/-!
Helper lemmas: arithmetic characterizations of the bit-twiddling
definitions above, shared by the claim theorems.
-/

namespace foedus

namespace xct

/-- A word has a non-zero intersection with a single-bit mask exactly when
that bit is set. -/
theorem and_two_pow_ne_zero_eq_testBit (x i : Nat) :
    decide (x &&& 2 ^ i ≠ 0) = x.testBit i := by
  rw [Nat.and_two_pow]
  cases h : x.testBit i <;> simp [h, Nat.pos_iff_ne_zero.mp (Nat.two_pow_pos i)]

/-- Or-ing in a bit at or above the truncation width does not change the
truncated value. -/
theorem lor_two_pow_mod_two_pow (a : Nat) {i n : Nat} (h : n ≤ i) :
    (a ||| 2 ^ i) % 2 ^ n = a % 2 ^ n := by
  apply Nat.eq_of_testBit_eq
  intro j
  simp only [Nat.testBit_mod_two_pow, Nat.testBit_or, Nat.testBit_two_pow]
  by_cases hj : j < n
  · have hij : i ≠ j := by omega
    simp [hj, hij]
  · simp [hj]

namespace XctId

/-- The epoch field of an `XctId` is the 28-bit slice at bit 32. -/
theorem get_epoch_int_eq (x : XctId) : x.get_epoch_int = x.data_ / 2 ^ 32 % 2 ^ 28 := by
  show (x.data_ &&& kXctIdMaskEpoch) >>> 32 = x.data_ / 2 ^ 32 % 2 ^ 28
  have hmask : kXctIdMaskEpoch = (2 ^ 28 - 1) <<< 32 := by decide
  rw [hmask]
  apply Nat.eq_of_testBit_eq
  intro i
  simp only [Nat.testBit_shiftRight, Nat.testBit_and, Nat.testBit_shiftLeft,
    Nat.testBit_mod_two_pow, Nat.testBit_two_pow_sub_one]
  rw [← Nat.shiftRight_eq_div_pow]
  simp only [Nat.testBit_shiftRight]
  by_cases h : i < 28
  · simp [h, Nat.add_sub_cancel_left, Nat.le_add_right]
  · simp [h]

/-- The epoch field is bounded by the 28-bit overflow value. -/
theorem get_epoch_int_lt (x : XctId) : x.get_epoch_int < 2 ^ 28 := by
  rw [get_epoch_int_eq]
  exact Nat.mod_lt _ (Nat.two_pow_pos 28)

/-- Validity unfolded: the epoch field is non-zero. -/
theorem is_valid_eq (x : XctId) : x.is_valid = decide (x.get_epoch_int ≠ 0) := rfl

/-- Source `clear_status_bits` keeps exactly the low 60 bits. -/
theorem clear_status_bits_data (x : XctId) :
    (x.clear_status_bits).data_ = x.data_ % 2 ^ 60 := by
  show x.data_ &&& kXctIdMaskSerializer = x.data_ % 2 ^ 60
  have h : kXctIdMaskSerializer = 2 ^ 60 - 1 := by decide
  rw [h, Nat.and_pow_two_sub_one_eq_mod]

/-- Source `set_next_layer` keeps the low 63 bits and sets bit 60. -/
theorem set_next_layer_data (x : XctId) :
    (x.set_next_layer).data_ = (x.data_ % 2 ^ 63) ||| 2 ^ 60 := by
  show (x.data_ &&& compl64 kXctIdDeletedBit) ||| kXctIdNextLayerBit = _
  have h1 : compl64 kXctIdDeletedBit = 2 ^ 63 - 1 := by decide
  have h2 : kXctIdNextLayerBit = 2 ^ 60 := by decide
  rw [h1, h2, Nat.and_pow_two_sub_one_eq_mod]

/-- Flag getter `is_deleted` reads bit 63. -/
theorem is_deleted_eq_testBit (x : XctId) : x.is_deleted = x.data_.testBit 63 := by
  show decide (x.data_ &&& kXctIdDeletedBit ≠ 0) = _
  have h : kXctIdDeletedBit = 2 ^ 63 := by decide
  rw [h, and_two_pow_ne_zero_eq_testBit]

/-- Flag getter `is_moved` reads bit 62. -/
theorem is_moved_eq_testBit (x : XctId) : x.is_moved = x.data_.testBit 62 := by
  show decide (x.data_ &&& kXctIdMovedBit ≠ 0) = _
  have h : kXctIdMovedBit = 2 ^ 62 := by decide
  rw [h, and_two_pow_ne_zero_eq_testBit]

/-- Flag getter `is_being_written` reads bit 61. -/
theorem is_being_written_eq_testBit (x : XctId) :
    x.is_being_written = x.data_.testBit 61 := by
  show decide (x.data_ &&& kXctIdBeingWrittenBit ≠ 0) = _
  have h : kXctIdBeingWrittenBit = 2 ^ 61 := by decide
  rw [h, and_two_pow_ne_zero_eq_testBit]

/-- Flag getter `is_next_layer` reads bit 60. -/
theorem is_next_layer_eq_testBit (x : XctId) : x.is_next_layer = x.data_.testBit 60 := by
  show decide (x.data_ &&& kXctIdNextLayerBit ≠ 0) = _
  have h : kXctIdNextLayerBit = 2 ^ 60 := by decide
  rw [h, and_two_pow_ne_zero_eq_testBit]

/-- Two stamps agreeing on bits 32–59 have the same epoch field. -/
theorem get_epoch_int_congr {x y : XctId}
    (h : ∀ i, 32 ≤ i → i < 60 → x.data_.testBit i = y.data_.testBit i) :
    x.get_epoch_int = y.get_epoch_int := by
  rw [get_epoch_int_eq, get_epoch_int_eq]
  apply Nat.eq_of_testBit_eq
  intro i
  rw [← Nat.shiftRight_eq_div_pow, ← Nat.shiftRight_eq_div_pow]
  simp only [Nat.testBit_mod_two_pow, Nat.testBit_shiftRight]
  by_cases hi : i < 28
  · simp [hi, h (32 + i) (by omega) (by omega)]
  · simp [hi]

/-- Two stamps agreeing on bits 0–31 have the same ordinal field. -/
theorem get_ordinal_congr {x y : XctId}
    (h : ∀ i, i < 32 → x.data_.testBit i = y.data_.testBit i) :
    x.get_ordinal = y.get_ordinal := by
  show x.data_ % 2 ^ 32 = y.data_ % 2 ^ 32
  apply Nat.eq_of_testBit_eq
  intro i
  simp only [Nat.testBit_mod_two_pow]
  by_cases hi : i < 32
  · simp [hi, h i hi]
  · simp [hi]

end XctId

namespace Epoch

/-- On distinct valid 28-bit epochs the modelled half-space order is
asymmetric. -/
theorem epochBefore_asymm {a b : Nat} (ha : a < 2 ^ 28) (hb : b < 2 ^ 28)
    (ha0 : a ≠ 0) (hb0 : b ≠ 0) (hab : a ≠ b)
    (h : foedus.Epoch.epochBefore a b = true) :
    foedus.Epoch.epochBefore b a = false := by
  unfold foedus.Epoch.epochBefore foedus.Epoch.kEpochInvalid
    foedus.Epoch.kEpochIntOverflow foedus.Epoch.kEpochIntHalf at h ⊢
  simp only [ha0, hb0, if_false, decide_eq_true_eq] at h
  simp only [ha0, hb0, if_false, decide_eq_false_iff_not]
  omega

/-- Within a half-open window of length `2^27` starting at `m`, the modelled
half-space order coincides with the natural order of the offsets from `m`. -/
theorem epochBefore_eq_in_window {m a b : Nat} (hm : m < 2 ^ 28)
    (ha : a < 2 ^ 28) (hb : b < 2 ^ 28) (ha0 : a ≠ 0) (hb0 : b ≠ 0)
    (hwa : (a + 2 ^ 28 - m) % 2 ^ 28 < 2 ^ 27)
    (hwb : (b + 2 ^ 28 - m) % 2 ^ 28 < 2 ^ 27) (hab : a ≠ b) :
    foedus.Epoch.epochBefore a b
      = decide ((a + 2 ^ 28 - m) % 2 ^ 28 < (b + 2 ^ 28 - m) % 2 ^ 28) := by
  unfold foedus.Epoch.epochBefore foedus.Epoch.kEpochInvalid
    foedus.Epoch.kEpochIntOverflow foedus.Epoch.kEpochIntHalf
  simp only [ha0, hb0, if_false]
  rw [decide_eq_decide]
  omega

/-- Within a common window, equal offsets mean equal epochs. -/
theorem epoch_eq_of_offset_eq {m a b : Nat} (hm : m < 2 ^ 28)
    (ha : a < 2 ^ 28) (hb : b < 2 ^ 28)
    (h : (a + 2 ^ 28 - m) % 2 ^ 28 = (b + 2 ^ 28 - m) % 2 ^ 28) : a = b := by
  omega

end Epoch

end xct

end foedus

/-!
Helper lemmas about validity and the serialization-order comparison.
-/

namespace foedus

namespace xct

namespace XctId

/-- Validity means a non-zero epoch field. -/
theorem is_valid_true_iff (x : XctId) : x.is_valid = true ↔ x.get_epoch_int ≠ 0 := by
  simp [XctId.is_valid, Epoch.kEpochInvalid]

/-- Invalidity means a zero epoch field. -/
theorem is_valid_false_iff (x : XctId) : x.is_valid = false ↔ x.get_epoch_int = 0 := by
  simp [XctId.is_valid, Epoch.kEpochInvalid]

/-- Source `compare_epoch_and_orginal` is reflexive-zero. -/
theorem compare_self (x : XctId) : x.compare_epoch_and_orginal x = 0 := by
  simp [XctId.compare_epoch_and_orginal]

/-- If `x` is not before `y`, then `x` compares greater-or-equal to `y`. -/
theorem compare_nonneg_of_not_before {x y : XctId} (h : x.before y = false) :
    0 ≤ x.compare_epoch_and_orginal y := by
  by_cases he : x.get_epoch_int = y.get_epoch_int
  · have ho : ¬ (x.get_ordinal < y.get_ordinal) := by
      simpa [XctId.before, he] using h
    unfold XctId.compare_epoch_and_orginal
    split_ifs <;> omega
  · have hb : Epoch.epochBefore x.get_epoch_int y.get_epoch_int = false := by
      simpa [XctId.before, he] using h
    simp [XctId.compare_epoch_and_orginal, he, hb]

/-- If valid `x` is before valid `y`, then `y` compares greater-or-equal
(indeed strictly greater) to `x`. -/
theorem compare_nonneg_swap_of_before {x y : XctId} (hx : x.is_valid = true)
    (hy : y.is_valid = true) (h : x.before y = true) :
    0 ≤ y.compare_epoch_and_orginal x := by
  by_cases he : x.get_epoch_int = y.get_epoch_int
  · have ho : x.get_ordinal < y.get_ordinal := by
      simpa [XctId.before, he] using h
    unfold XctId.compare_epoch_and_orginal
    split_ifs <;> omega
  · have hb : Epoch.epochBefore x.get_epoch_int y.get_epoch_int = true := by
      simpa [XctId.before, he] using h
    have hb' : Epoch.epochBefore y.get_epoch_int x.get_epoch_int = false :=
      Epoch.epochBefore_asymm (get_epoch_int_lt x) (get_epoch_int_lt y)
        ((is_valid_true_iff x).mp hx) ((is_valid_true_iff y).mp hy) he hb
    have he' : y.get_epoch_int ≠ x.get_epoch_int := fun hh => he hh.symm
    simp [XctId.compare_epoch_and_orginal, he', hb']

end XctId

end xct

end foedus

/-!
Claim theorems.
-/

namespace foedus

namespace xct

/-- Claim C1: `store_max(other)` leaves the stamp unchanged when `other` is
invalid (epoch 0); when `other` is valid the stamp becomes a copy of `other`
if `before(other)` holds and is unchanged otherwise, so the result is the
maximum of the two under `compare`, and `store_max` with itself is the
identity.  Concretely `(5,200).store_max((5,199)) = (5,200)`, then
`store_max((6,1)) = (6,1)`, then `store_max((0,0)) = (6,1)`. -/
theorem c1_store_max (x y : XctId) :
    (y.is_valid = false → x.store_max y = x) ∧
    (y.is_valid = true → x.before y = true → x.store_max y = y) ∧
    (y.is_valid = true → x.before y = false → x.store_max y = x) ∧
    (y.is_valid = true → x.is_valid = true →
      0 ≤ (x.store_max y).compare_epoch_and_orginal x ∧
      0 ≤ (x.store_max y).compare_epoch_and_orginal y ∧
      (x.store_max y = x ∨ x.store_max y = y)) ∧
    x.store_max x = x ∧
    ((XctId.set 5 200).store_max (XctId.set 5 199) = XctId.set 5 200 ∧
      (XctId.set 5 200).store_max (XctId.set 6 1) = XctId.set 6 1 ∧
      (XctId.set 6 1).store_max (XctId.set 0 0) = XctId.set 6 1) := by
  refine ⟨?_, ?_, ?_, ?_, ?_, by decide⟩
  · intro h
    simp [XctId.store_max, h]
  · intro hv hb
    simp [XctId.store_max, hv, hb]
  · intro hv hb
    simp [XctId.store_max, hv, hb]
  · intro hv hx
    by_cases hb : x.before y = true
    · have hres : x.store_max y = y := by simp [XctId.store_max, hv, hb]
      rw [hres]
      exact ⟨XctId.compare_nonneg_swap_of_before hx hv hb,
        le_of_eq (XctId.compare_self y).symm, Or.inr rfl⟩
    · have hb' : x.before y = false := by
        cases hhb : x.before y
        · rfl
        · exact absurd hhb hb
      have hres : x.store_max y = x := by simp [XctId.store_max, hv, hb']
      rw [hres]
      exact ⟨le_of_eq (XctId.compare_self x).symm,
        XctId.compare_nonneg_of_not_before hb', Or.inl rfl⟩
  · by_cases hv : x.is_valid = true
    · have hb : x.before x = false := by simp [XctId.before]
      simp [XctId.store_max, hv, hb]
    · have hv' : x.is_valid = false := by
        cases hhv : x.is_valid
        · rfl
        · exact absurd hhv hv
      simp [XctId.store_max, hv']

/-- Claim C1 witness: concrete application at `x = (5,200)`, `y = (6,1)`. -/
theorem c1_witness :
    (XctId.set 5 200).store_max (XctId.set 6 1) = XctId.set 6 1 :=
  (c1_store_max (XctId.set 5 200) (XctId.set 6 1)).2.1 (by decide) (by decide)

/-- Claim C2: for every stamp `x` and valid stamp `y`, `x.before(y)` holds iff
`x` is invalid or `compare(x, y) < 0`; `before` is anti-reflexive on valid
stamps; and on the concrete values `a=(7,100)`, `b=(7,101)`, `c=(8,1)`,
`z=(0,0)`: `a.before(b)`, `b.before(c)`, `¬c.before(a)`, `z.before(a)`, and
`¬a.before(z)`. -/
theorem c2_before (x y : XctId) (hy : y.is_valid = true) :
    (x.before y = true ↔
      (x.is_valid = false ∨ x.compare_epoch_and_orginal y < 0)) ∧
    (x.is_valid = true → x.before x = false) ∧
    ((XctId.set 7 100).before (XctId.set 7 101) = true ∧
      (XctId.set 7 101).before (XctId.set 8 1) = true ∧
      (XctId.set 8 1).before (XctId.set 7 100) = false ∧
      (XctId.set 0 0).before (XctId.set 7 100) = true ∧
      (XctId.set 7 100).before (XctId.set 0 0) = false) := by
  refine ⟨?_, ?_, by decide⟩
  · by_cases he : x.get_epoch_int = y.get_epoch_int
    · have hy' : y.get_epoch_int ≠ 0 := (XctId.is_valid_true_iff y).mp hy
      have hx : x.is_valid = true := by
        rw [XctId.is_valid_true_iff, he]
        exact hy'
      have hbefore : x.before y = decide (x.get_ordinal < y.get_ordinal) := by
        simp [XctId.before, he]
      by_cases ho : x.get_ordinal < y.get_ordinal
      · simp [hbefore, ho, hx, XctId.compare_epoch_and_orginal, he]
      · by_cases ho2 : x.get_ordinal > y.get_ordinal <;>
          simp [hbefore, ho, ho2, hx, XctId.compare_epoch_and_orginal, he]
    · have hbefore :
          x.before y = Epoch.epochBefore x.get_epoch_int y.get_epoch_int := by
        simp [XctId.before, he]
      have hcomp : x.compare_epoch_and_orginal y
          = if Epoch.epochBefore x.get_epoch_int y.get_epoch_int then -1 else 1 := by
        simp [XctId.compare_epoch_and_orginal, he]
      by_cases hx0 : x.get_epoch_int = 0
      · have hbtrue : Epoch.epochBefore x.get_epoch_int y.get_epoch_int = true := by
          simp [Epoch.epochBefore, hx0, Epoch.kEpochInvalid]
        have hxv : x.is_valid = false := (XctId.is_valid_false_iff x).mpr hx0
        simp [hbefore, hcomp, hbtrue, hxv]
      · have hxv : x.is_valid = true := (XctId.is_valid_true_iff x).mpr hx0
        cases heb : Epoch.epochBefore x.get_epoch_int y.get_epoch_int
        · simp [hbefore, hcomp, heb, hxv]
        · simp [hbefore, hcomp, heb, hxv]
  · intro hx
    simp [XctId.before]

/-- Claim C2 witness: concrete application at `x = (7,100)`, `y = (7,101)`. -/
theorem c2_witness :
    (XctId.set 7 100).before (XctId.set 7 101) = true ↔
      ((XctId.set 7 100).is_valid = false ∨
        (XctId.set 7 100).compare_epoch_and_orginal (XctId.set 7 101) < 0) :=
  (c2_before (XctId.set 7 100) (XctId.set 7 101) (by decide)).1

/-- Claim C6: for every version stamp `x`, after `x.clear_status_bits()` the
four flags `deleted`, `moved`, `being_written`, `next_layer` all read false,
and the epoch and ordinal fields of `x` are preserved bit-for-bit. -/
theorem c6_clear_status_bits_frame (x : XctId) :
    x.clear_status_bits.is_deleted = false ∧
    x.clear_status_bits.is_moved = false ∧
    x.clear_status_bits.is_being_written = false ∧
    x.clear_status_bits.is_next_layer = false ∧
    x.clear_status_bits.get_epoch_int = x.get_epoch_int ∧
    x.clear_status_bits.get_ordinal = x.get_ordinal := by
  refine ⟨?_, ?_, ?_, ?_, ?_, ?_⟩
  · rw [XctId.is_deleted_eq_testBit, XctId.clear_status_bits_data]
    simp only [Nat.testBit_mod_two_pow]
    rw [decide_eq_false (by omega : ¬ (_ < 60)), Bool.false_and]
  · rw [XctId.is_moved_eq_testBit, XctId.clear_status_bits_data]
    simp only [Nat.testBit_mod_two_pow]
    rw [decide_eq_false (by omega : ¬ (_ < 60)), Bool.false_and]
  · rw [XctId.is_being_written_eq_testBit, XctId.clear_status_bits_data]
    simp only [Nat.testBit_mod_two_pow]
    rw [decide_eq_false (by omega : ¬ (_ < 60)), Bool.false_and]
  · rw [XctId.is_next_layer_eq_testBit, XctId.clear_status_bits_data]
    simp only [Nat.testBit_mod_two_pow]
    rw [decide_eq_false (by omega : ¬ (_ < 60)), Bool.false_and]
  · apply XctId.get_epoch_int_congr
    intro i h1 h2
    rw [XctId.clear_status_bits_data]
    simp only [Nat.testBit_mod_two_pow, decide_eq_true_eq]
    rw [decide_eq_true (show i < 60 from h2), Bool.true_and]
  · apply XctId.get_ordinal_congr
    intro i hi
    rw [XctId.clear_status_bits_data]
    simp only [Nat.testBit_mod_two_pow]
    rw [decide_eq_true (show i < 60 by omega), Bool.true_and]

/-- Claim C7: for every version stamp `x`, after `x.set_next_layer()` the stamp
has `is_next_layer()` true and `is_deleted()` false, and every other field —
the moved flag, the being-written flag, the epoch, and the ordinal — is
unchanged, whatever the prior value of the deleted bit. -/
theorem c7_set_next_layer_frame (x : XctId) :
    x.set_next_layer.is_next_layer = true ∧
    x.set_next_layer.is_deleted = false ∧
    x.set_next_layer.is_moved = x.is_moved ∧
    x.set_next_layer.is_being_written = x.is_being_written ∧
    x.set_next_layer.get_epoch_int = x.get_epoch_int ∧
    x.set_next_layer.get_ordinal = x.get_ordinal := by
  refine ⟨?_, ?_, ?_, ?_, ?_, ?_⟩
  · rw [XctId.is_next_layer_eq_testBit, XctId.set_next_layer_data]
    simp only [Nat.testBit_or, Nat.testBit_two_pow]
    simp
  · rw [XctId.is_deleted_eq_testBit, XctId.set_next_layer_data]
    simp only [Nat.testBit_or, Nat.testBit_two_pow, Nat.testBit_mod_two_pow]
    rw [decide_eq_false (show ¬ ((63 : Nat) < 63) by omega),
      decide_eq_false (show ¬ ((60 : Nat) = 63) by omega),
      Bool.false_and, Bool.false_or]
  · rw [XctId.is_moved_eq_testBit, XctId.is_moved_eq_testBit, XctId.set_next_layer_data]
    simp only [Nat.testBit_or, Nat.testBit_two_pow, Nat.testBit_mod_two_pow]
    rw [decide_eq_true (show (62 : Nat) < 63 by omega),
      decide_eq_false (show ¬ ((60 : Nat) = 62) by omega),
      Bool.true_and, Bool.or_false]
  · rw [XctId.is_being_written_eq_testBit, XctId.is_being_written_eq_testBit,
      XctId.set_next_layer_data]
    simp only [Nat.testBit_or, Nat.testBit_two_pow, Nat.testBit_mod_two_pow]
    rw [decide_eq_true (show (61 : Nat) < 63 by omega),
      decide_eq_false (show ¬ ((60 : Nat) = 61) by omega),
      Bool.true_and, Bool.or_false]
  · apply XctId.get_epoch_int_congr
    intro i h1 h2
    rw [XctId.set_next_layer_data]
    simp only [Nat.testBit_or, Nat.testBit_two_pow, Nat.testBit_mod_two_pow]
    rw [decide_eq_true (show i < 63 by omega),
      decide_eq_false (show ¬ (60 = i) by omega),
      Bool.true_and, Bool.or_false]
  · apply XctId.get_ordinal_congr
    intro i hi
    rw [XctId.set_next_layer_data]
    simp only [Nat.testBit_or, Nat.testBit_two_pow, Nat.testBit_mod_two_pow]
    rw [decide_eq_true (show i < 63 by omega),
      decide_eq_false (show ¬ (60 = i) by omega),
      Bool.true_and, Bool.or_false]

/-- On stamps whose epochs lie in a common half-open window of length `2^27`
starting at `m`, the comparison is lexicographic on (offset from `m`,
ordinal). -/
theorem compare_eq_lex_in_window {m : Nat} (hm : m < 2 ^ 28) {x y : XctId}
    (hx : x.is_valid = true) (hy : y.is_valid = true)
    (hwx : (x.get_epoch_int + 2 ^ 28 - m) % 2 ^ 28 < 2 ^ 27)
    (hwy : (y.get_epoch_int + 2 ^ 28 - m) % 2 ^ 28 < 2 ^ 27) :
    x.compare_epoch_and_orginal y =
      if (x.get_epoch_int + 2 ^ 28 - m) % 2 ^ 28
          < (y.get_epoch_int + 2 ^ 28 - m) % 2 ^ 28 then -1
      else if (y.get_epoch_int + 2 ^ 28 - m) % 2 ^ 28
          < (x.get_epoch_int + 2 ^ 28 - m) % 2 ^ 28 then 1
      else if x.get_ordinal < y.get_ordinal then -1
      else if y.get_ordinal < x.get_ordinal then 1
      else 0 := by
  by_cases he : x.get_epoch_int = y.get_epoch_int
  · have hpp : (x.get_epoch_int + 2 ^ 28 - m) % 2 ^ 28
        = (y.get_epoch_int + 2 ^ 28 - m) % 2 ^ 28 := by rw [he]
    rw [hpp, if_neg (lt_irrefl _), if_neg (lt_irrefl _)]
    simp only [XctId.compare_epoch_and_orginal]
    rw [if_neg (fun hh => hh he)]
  · have hq := Epoch.epochBefore_eq_in_window hm (XctId.get_epoch_int_lt x)
      (XctId.get_epoch_int_lt y) ((XctId.is_valid_true_iff x).mp hx)
      ((XctId.is_valid_true_iff y).mp hy) hwx hwy he
    have hne : (x.get_epoch_int + 2 ^ 28 - m) % 2 ^ 28
        ≠ (y.get_epoch_int + 2 ^ 28 - m) % 2 ^ 28 := fun hh =>
      he (Epoch.epoch_eq_of_offset_eq hm (XctId.get_epoch_int_lt x)
        (XctId.get_epoch_int_lt y) hh)
    simp only [XctId.compare_epoch_and_orginal]
    rw [if_pos he, hq]
    simp only [decide_eq_true_eq]
    by_cases hlt : (x.get_epoch_int + 2 ^ 28 - m) % 2 ^ 28
        < (y.get_epoch_int + 2 ^ 28 - m) % 2 ^ 28
    · rw [if_pos hlt, if_pos hlt]
    · have hgt : (y.get_epoch_int + 2 ^ 28 - m) % 2 ^ 28
          < (x.get_epoch_int + 2 ^ 28 - m) % 2 ^ 28 := by omega
      rw [if_neg hlt, if_neg hlt, if_pos hgt]

/-- Claim C3 counterexample: the half-space rule on the 28-bit epoch ring is
not antisymmetric at the antipodal distance `2^27` and not transitive around
the ring.  With ordinal 1 everywhere and epochs `1`, `1 + 2^26`, `1 + 2^27`
(all valid, ordinals non-zero): `compare((1,1),(1+2^27,1)) = 1` **and**
`compare((1+2^27,1),(1,1)) = 1`, breaking `compare(a,b) = −compare(b,a)`; and
`compare(a,b) ≤ 0`, `compare(b,c) ≤ 0`, yet `compare(a,c) = 1 > 0`, breaking
transitivity. -/
theorem c3_counterexample :
    (XctId.set 1 1).is_valid = true ∧
    (XctId.set 67108865 1).is_valid = true ∧
    (XctId.set 134217729 1).is_valid = true ∧
    (XctId.set 1 1).get_ordinal ≠ 0 ∧
    (XctId.set 67108865 1).get_ordinal ≠ 0 ∧
    (XctId.set 134217729 1).get_ordinal ≠ 0 ∧
    (XctId.set 1 1).compare_epoch_and_orginal (XctId.set 134217729 1) = 1 ∧
    (XctId.set 134217729 1).compare_epoch_and_orginal (XctId.set 1 1) = 1 ∧
    ¬ ((XctId.set 1 1).compare_epoch_and_orginal (XctId.set 134217729 1)
        = - ((XctId.set 134217729 1).compare_epoch_and_orginal (XctId.set 1 1))) ∧
    (XctId.set 1 1).compare_epoch_and_orginal (XctId.set 67108865 1) ≤ 0 ∧
    (XctId.set 67108865 1).compare_epoch_and_orginal (XctId.set 134217729 1) ≤ 0 ∧
    ¬ ((XctId.set 1 1).compare_epoch_and_orginal (XctId.set 134217729 1) ≤ 0) := by
  decide

set_option maxHeartbeats 2000000 in
/-- Claim C3 amended: for valid stamps with non-zero ordinals whose epochs all
lie in one half-open window of length `2^27` of the 28-bit epoch ring
(offsets from a base `m` all below `2^27`), `compare` is antisymmetric
(`compare(a,b) = −compare(b,a)`) and transitive.  Without the common-window
restriction both properties fail at wrap-around distances (see the
counterexample). -/
theorem c3_window_antisymm_trans (x y z : XctId) (m : Nat) (hm : m < 2 ^ 28)
    (hx : x.is_valid = true) (hy : y.is_valid = true) (hz : z.is_valid = true)
    (_hox : x.get_ordinal ≠ 0) (_hoy : y.get_ordinal ≠ 0)
    (_hoz : z.get_ordinal ≠ 0)
    (hwx : (x.get_epoch_int + 2 ^ 28 - m) % 2 ^ 28 < 2 ^ 27)
    (hwy : (y.get_epoch_int + 2 ^ 28 - m) % 2 ^ 28 < 2 ^ 27)
    (hwz : (z.get_epoch_int + 2 ^ 28 - m) % 2 ^ 28 < 2 ^ 27) :
    x.compare_epoch_and_orginal y = - (y.compare_epoch_and_orginal x) ∧
    (x.compare_epoch_and_orginal y ≤ 0 → y.compare_epoch_and_orginal z ≤ 0 →
      x.compare_epoch_and_orginal z ≤ 0) := by
  have hxy := compare_eq_lex_in_window hm hx hy hwx hwy
  have hyx := compare_eq_lex_in_window hm hy hx hwy hwx
  have hyz := compare_eq_lex_in_window hm hy hz hwy hwz
  have hxz := compare_eq_lex_in_window hm hx hz hwx hwz
  constructor
  · rw [hxy, hyx]
    generalize (x.get_epoch_int + 2 ^ 28 - m) % 2 ^ 28 = px
    generalize (y.get_epoch_int + 2 ^ 28 - m) % 2 ^ 28 = py
    split_ifs <;> omega
  · rw [hxy, hyz, hxz]
    generalize (x.get_epoch_int + 2 ^ 28 - m) % 2 ^ 28 = px
    generalize (y.get_epoch_int + 2 ^ 28 - m) % 2 ^ 28 = py
    generalize (z.get_epoch_int + 2 ^ 28 - m) % 2 ^ 28 = pz
    split_ifs <;> omega

/-- Claim C3 witness: concrete application of the amended statement in the
window starting at `m = 0`, at `a = (7,100)`, `b = (7,101)`, `c = (8,1)`. -/
theorem c3_witness :
    (XctId.set 7 100).compare_epoch_and_orginal (XctId.set 7 101)
      = - ((XctId.set 7 101).compare_epoch_and_orginal (XctId.set 7 100)) ∧
    ((XctId.set 7 100).compare_epoch_and_orginal (XctId.set 7 101) ≤ 0 →
      (XctId.set 7 101).compare_epoch_and_orginal (XctId.set 8 1) ≤ 0 →
      (XctId.set 7 100).compare_epoch_and_orginal (XctId.set 8 1) ≤ 0) :=
  c3_window_antisymm_trans (XctId.set 7 100) (XctId.set 7 101) (XctId.set 8 1) 0
    (by decide) (by decide) (by decide) (by decide) (by decide) (by decide)
    (by decide) (by decide) (by decide) (by decide)

/-- Or-ing anything into a word keeps every set bit set. -/
theorem lor_testBit_mono {a : Nat} (c : Nat) {i : Nat} (h : a.testBit i = true) :
    (a ||| c).testBit i = true := by
  rw [Nat.testBit_or, h, Bool.true_or]

/-- Masking with the 64-bit complement of a single bit leaves every other
bit below 64 unchanged. -/
theorem land_compl64_single_testBit (a : Nat) {k i : Nat}
    (hi : i < 64) (hne : k ≠ i) :
    (a &&& compl64 (1 <<< k)).testBit i = a.testBit i := by
  simp only [compl64, Nat.one_shiftLeft, Nat.testBit_and, Nat.testBit_xor,
    Nat.testBit_two_pow_sub_one, Nat.testBit_two_pow]
  rw [decide_eq_true hi, decide_eq_false hne]
  simp

/-- Source `set_epoch_int` can only add bits at positions 60–63, never clear
them. -/
theorem set_epoch_int_testBit_mono (x : XctId) (e : Nat) {i : Nat} (hi : 60 ≤ i)
    (hi64 : i < 64) (h : x.data_.testBit i = true) :
    ((x.set_epoch_int e).data_).testBit i = true := by
  have hm : kXctIdMaskEpoch = (2 ^ 28 - 1) <<< 32 := by decide
  show ((x.data_ &&& compl64 kXctIdMaskEpoch) ||| ((e % 2 ^ 32) <<< 32)).testBit i = true
  rw [hm]
  simp only [compl64, Nat.testBit_or, Nat.testBit_and, Nat.testBit_xor,
    Nat.testBit_two_pow_sub_one, Nat.testBit_shiftLeft]
  rw [h, decide_eq_true hi64, decide_eq_false (show ¬ (i - 32 < 28) by omega)]
  simp

/-- Source `set_ordinal` leaves bits 32–63 unchanged. -/
theorem set_ordinal_testBit_high (x : XctId) (o : Nat) {i : Nat} (hi32 : 32 ≤ i)
    (hi64 : i < 64) : ((x.set_ordinal o).data_).testBit i = x.data_.testBit i := by
  have hm : kXctIdMaskOrdinal = 2 ^ 32 - 1 := by decide
  show ((x.data_ &&& compl64 kXctIdMaskOrdinal) ||| (o % 2 ^ 32)).testBit i
    = x.data_.testBit i
  rw [hm]
  simp only [compl64, Nat.testBit_or, Nat.testBit_and, Nat.testBit_xor,
    Nat.testBit_two_pow_sub_one, Nat.testBit_mod_two_pow]
  rw [decide_eq_true hi64, decide_eq_false (show ¬ i < 32 by omega)]
  simp

/-- Claim C4 counterexample: the claim includes `clear_status_bits` and
`store_max` among the quantified operations, but `clear_status_bits` masks
out both the `next_layer` and the `moved` bit, and `store_max` overwrites the
whole stamp — flags included — with the other stamp.  Both therefore turn
`is_next_layer()` (and `is_moved()`) from true back to false. -/
theorem c4_counterexample :
    (XctId.set 5 7).set_moved.set_next_layer.is_next_layer = true ∧
    (XctId.set 5 7).set_moved.set_next_layer.is_moved = true ∧
    (XctId.set 5 7).set_moved.set_next_layer.clear_status_bits.is_next_layer = false ∧
    (XctId.set 5 7).set_moved.set_next_layer.clear_status_bits.is_moved = false ∧
    (XctId.set 1 1).set_moved.set_next_layer.is_next_layer = true ∧
    (XctId.set 1 1).set_moved.set_next_layer.is_moved = true ∧
    ((XctId.set 1 1).set_moved.set_next_layer.store_max (XctId.set 2 1)).is_next_layer
      = false ∧
    ((XctId.set 1 1).set_moved.set_next_layer.store_max (XctId.set 2 1)).is_moved
      = false := by
  decide

/-- Claim C4 amended: the `next_layer` and `moved` flags are monotone true
under the flag setters (`set_deleted`, `set_notdeleted`, `set_moved`,
`set_being_written`, `set_write_complete`, `set_next_layer`), `set_epoch_int`,
`set_ordinal`, and `increment_ordinal`; but **not** under `clear_status_bits`
(which masks both flags out) or `store_max` (which may replace the stamp —
flags included — with the other operand). -/
theorem c4_flags_monotone (x : XctId) (e o : Nat) :
    (x.is_next_layer = true →
      x.set_deleted.is_next_layer = true ∧
      x.set_notdeleted.is_next_layer = true ∧
      x.set_moved.is_next_layer = true ∧
      x.set_being_written.is_next_layer = true ∧
      x.set_write_complete.is_next_layer = true ∧
      x.set_next_layer.is_next_layer = true ∧
      (x.set_epoch_int e).is_next_layer = true ∧
      (x.set_ordinal o).is_next_layer = true ∧
      x.increment_ordinal.is_next_layer = true) ∧
    (x.is_moved = true →
      x.set_deleted.is_moved = true ∧
      x.set_notdeleted.is_moved = true ∧
      x.set_moved.is_moved = true ∧
      x.set_being_written.is_moved = true ∧
      x.set_write_complete.is_moved = true ∧
      x.set_next_layer.is_moved = true ∧
      (x.set_epoch_int e).is_moved = true ∧
      (x.set_ordinal o).is_moved = true ∧
      x.increment_ordinal.is_moved = true) := by
  constructor
  · intro h
    rw [XctId.is_next_layer_eq_testBit] at h
    refine ⟨?_, ?_, ?_, ?_, ?_, ?_, ?_, ?_, ?_⟩
    · rw [XctId.is_next_layer_eq_testBit]
      exact lor_testBit_mono _ h
    · rw [XctId.is_next_layer_eq_testBit]
      show (x.data_ &&& compl64 (1 <<< 63)).testBit 60 = true
      rw [land_compl64_single_testBit x.data_ (by omega) (by omega)]
      exact h
    · rw [XctId.is_next_layer_eq_testBit]
      exact lor_testBit_mono _ h
    · rw [XctId.is_next_layer_eq_testBit]
      exact lor_testBit_mono _ h
    · rw [XctId.is_next_layer_eq_testBit]
      show (x.data_ &&& compl64 (1 <<< 61)).testBit 60 = true
      rw [land_compl64_single_testBit x.data_ (by omega) (by omega)]
      exact h
    · rw [XctId.is_next_layer_eq_testBit]
      show ((x.data_ &&& compl64 (1 <<< 63)) ||| (1 <<< 60)).testBit 60 = true
      rw [Nat.testBit_or, (by decide : ((1 : Nat) <<< 60).testBit 60 = true),
        Bool.or_true]
    · rw [XctId.is_next_layer_eq_testBit]
      exact set_epoch_int_testBit_mono x e (by omega) (by omega) h
    · rw [XctId.is_next_layer_eq_testBit]
      rw [set_ordinal_testBit_high x o (by omega) (by omega)]
      exact h
    · rw [XctId.is_next_layer_eq_testBit]
      show ((x.set_ordinal (x.get_ordinal + 1)).data_).testBit 60 = true
      rw [set_ordinal_testBit_high x (x.get_ordinal + 1) (by omega) (by omega)]
      exact h
  · intro h
    rw [XctId.is_moved_eq_testBit] at h
    refine ⟨?_, ?_, ?_, ?_, ?_, ?_, ?_, ?_, ?_⟩
    · rw [XctId.is_moved_eq_testBit]
      exact lor_testBit_mono _ h
    · rw [XctId.is_moved_eq_testBit]
      show (x.data_ &&& compl64 (1 <<< 63)).testBit 62 = true
      rw [land_compl64_single_testBit x.data_ (by omega) (by omega)]
      exact h
    · rw [XctId.is_moved_eq_testBit]
      exact lor_testBit_mono _ h
    · rw [XctId.is_moved_eq_testBit]
      exact lor_testBit_mono _ h
    · rw [XctId.is_moved_eq_testBit]
      show (x.data_ &&& compl64 (1 <<< 61)).testBit 62 = true
      rw [land_compl64_single_testBit x.data_ (by omega) (by omega)]
      exact h
    · rw [XctId.is_moved_eq_testBit]
      show ((x.data_ &&& compl64 (1 <<< 63)) ||| (1 <<< 60)).testBit 62 = true
      apply lor_testBit_mono
      rw [land_compl64_single_testBit x.data_ (by omega) (by omega)]
      exact h
    · rw [XctId.is_moved_eq_testBit]
      exact set_epoch_int_testBit_mono x e (by omega) (by omega) h
    · rw [XctId.is_moved_eq_testBit]
      rw [set_ordinal_testBit_high x o (by omega) (by omega)]
      exact h
    · rw [XctId.is_moved_eq_testBit]
      show ((x.set_ordinal (x.get_ordinal + 1)).data_).testBit 62 = true
      rw [set_ordinal_testBit_high x (x.get_ordinal + 1) (by omega) (by omega)]
      exact h

/-- Claim C4 witness: concrete application of the amended monotonicity at a
stamp with both flags set. -/
theorem c4_witness :
    (XctId.set 5 7).set_moved.set_next_layer.set_deleted.is_next_layer = true ∧
    (XctId.set 5 7).set_moved.set_next_layer.set_deleted.is_moved = true :=
  ⟨((c4_flags_monotone (XctId.set 5 7).set_moved.set_next_layer 0 0).1
      (by decide)).1,
   ((c4_flags_monotone (XctId.set 5 7).set_moved.set_next_layer 0 0).2
      (by decide)).1⟩

/-- Claim C5 counterexample: `RwLockableXctId::reset` does **not** zero the
whole lock half — it sets `next_writer_` to `kNextWriterNone = 0xFFFF`, so the
reset state differs from the born-zero state of freshly zeroed page memory. -/
theorem c5_counterexample :
    (RwLockableXctId.reset ⟨⟨0, 0, 0⟩, ⟨0⟩⟩).lock_.next_writer_ = 0xFFFF ∧
    (RwLockableXctId.reset ⟨⟨0, 0, 0⟩, ⟨0⟩⟩).lock_.next_writer_ ≠ 0 ∧
    RwLockableXctId.reset ⟨⟨0, 0, 0⟩, ⟨0⟩⟩ ≠ ⟨⟨0, 0, 0⟩, ⟨0⟩⟩ := by
  refine ⟨rfl, by decide, by decide⟩

/-- Claim C5 amended: after `RwLockableXctId::reset`, the version-stamp half is
zero and the lock half has `tail_ = 0`, `readers_count_ = 0`, and
`next_writer_ = kNextWriterNone (0xFFFF)` — not zero — so the lock reads as
unlocked with no next writer, but the reset state is not bitwise identical to
freshly zeroed memory. -/
theorem c5_reset_state (s : RwLockableXctId) :
    s.reset.lock_.tail_ = 0 ∧
    s.reset.lock_.readers_count_ = 0 ∧
    s.reset.lock_.next_writer_ = kNextWriterNone ∧
    s.reset.xct_id_.data_ = 0 ∧
    s.reset.is_keylocked = false ∧
    s.reset.lock_.has_next_writer = false := by
  refine ⟨rfl, rfl, rfl, rfl, ?_, ?_⟩
  · simp [RwLockableXctId.reset, RwLockableXctId.is_keylocked, McsRwLock.reset,
      McsRwLock.is_locked]
  · simp [RwLockableXctId.reset, McsRwLock.reset, McsRwLock.has_next_writer,
      kNextWriterNone]

/-- Claim C8: packing `(t, b)` into the exclusive-lock word stores `b` in the
low 16 bits and `t` in the next 16 bits; `get_tail_waiter` and
`get_tail_waiter_block` recover exactly `t` and `b`; and `is_locked()` holds
iff the low 16 bits are non-zero, i.e. iff `b ≠ 0`. -/
theorem c8_to_int_roundtrip (t b : Nat) (ht : t < 2 ^ 16) (hb : b ≤ 0xFFFF) :
    McsLock.to_int t b % 2 ^ 16 = b ∧
    McsLock.to_int t b / 2 ^ 16 % 2 ^ 16 = t ∧
    McsLock.get_tail_waiter ⟨McsLock.to_int t b, 0⟩ = t ∧
    McsLock.get_tail_waiter_block ⟨McsLock.to_int t b, 0⟩ = b ∧
    (McsLock.is_locked ⟨McsLock.to_int t b, 0⟩ = true ↔ b ≠ 0) := by
  have hmask : (0xFFFF : Nat) = 2 ^ 16 - 1 := by norm_num
  have hval : McsLock.to_int t b = t * 2 ^ 16 + b := by
    show (((t % 2 ^ 16) <<< 16) ||| (b &&& 0xFFFF)) % 2 ^ 32 = _
    have h1 : t % 2 ^ 16 = t := Nat.mod_eq_of_lt ht
    have h2 : b &&& 0xFFFF = b := by
      rw [hmask, Nat.and_pow_two_sub_one_eq_mod]
      exact Nat.mod_eq_of_lt (by omega)
    rw [h1, h2, Nat.shiftLeft_eq, Nat.mul_comm t (2 ^ 16),
      ← Nat.mul_add_lt_is_or (by omega) t, Nat.mul_comm (2 ^ 16) t]
    exact Nat.mod_eq_of_lt (by omega)
  have hblock : McsLock.to_int t b &&& 0xFFFF = b := by
    rw [hmask, Nat.and_pow_two_sub_one_eq_mod, hval]
    omega
  refine ⟨by rw [hval]; omega, by rw [hval]; omega, ?_, hblock, ?_⟩
  · show McsLock.to_int t b >>> 16 = t
    rw [Nat.shiftRight_eq_div_pow, hval]
    omega
  · show decide (McsLock.to_int t b &&& 0xFFFF ≠ 0) = true ↔ b ≠ 0
    rw [hblock]
    simp

/-- Claim C8 witness: concrete round trip for thread 7, block 1. -/
theorem c8_witness :
    McsLock.get_tail_waiter ⟨McsLock.to_int 7 1, 0⟩ = 7 ∧
    McsLock.get_tail_waiter_block ⟨McsLock.to_int 7 1, 0⟩ = 1 ∧
    McsLock.is_locked ⟨McsLock.to_int 7 1, 0⟩ = true :=
  ⟨(c8_to_int_roundtrip 7 1 (by decide) (by decide)).2.2.1,
   (c8_to_int_roundtrip 7 1 (by decide) (by decide)).2.2.2.1,
   (c8_to_int_roundtrip 7 1 (by decide) (by decide)).2.2.2.2.mpr (by decide)⟩

/-- Claim C10: `decrement_readers_count` subtracts one (as a 16-bit
fetch-and-add of `-1`) and returns the value `readers_count_` held **before**
the decrement; when the last reader releases (`readers_count_ = 1`) the call
returns 1 and the count becomes 0, so testing the return value against 0 to
detect the last reader is off by one.  `increment_readers_count` adds one and
returns nothing; neither touches `tail_` or `next_writer_`. -/
theorem c10_readers_count_fetch_add (l : McsRwLock) :
    l.decrement_readers_count.2 = l.readers_count_ ∧
    l.decrement_readers_count.1.readers_count_
      = (l.readers_count_ + 2 ^ 16 - 1) % 2 ^ 16 ∧
    (1 ≤ l.readers_count_ → l.readers_count_ < 2 ^ 16 →
      l.decrement_readers_count.1.readers_count_ = l.readers_count_ - 1 ∧
      l.decrement_readers_count.2 = l.decrement_readers_count.1.readers_count_ + 1) ∧
    (l.readers_count_ = 1 →
      l.decrement_readers_count.2 = 1 ∧
      l.decrement_readers_count.1.readers_count_ = 0 ∧
      l.decrement_readers_count.2 ≠ 0) ∧
    l.increment_readers_count.readers_count_ = (l.readers_count_ + 1) % 2 ^ 16 ∧
    l.increment_readers_count.tail_ = l.tail_ ∧
    l.increment_readers_count.next_writer_ = l.next_writer_ ∧
    l.decrement_readers_count.1.tail_ = l.tail_ ∧
    l.decrement_readers_count.1.next_writer_ = l.next_writer_ := by
  refine ⟨rfl, rfl, ?_, ?_, rfl, ?_, ?_, ?_, ?_⟩
  · intro h1 h2
    show (l.readers_count_ + 2 ^ 16 - 1) % 2 ^ 16 = l.readers_count_ - 1 ∧
      l.readers_count_ = (l.readers_count_ + 2 ^ 16 - 1) % 2 ^ 16 + 1
    omega
  · intro h
    show l.readers_count_ = 1 ∧ (l.readers_count_ + 2 ^ 16 - 1) % 2 ^ 16 = 0 ∧
      l.readers_count_ ≠ 0
    omega
  · simp only [McsRwLock.increment_readers_count]
  · simp only [McsRwLock.increment_readers_count]
  · simp only [McsRwLock.decrement_readers_count]
  · simp only [McsRwLock.decrement_readers_count]

/-- Claim C10 witness: the last reader's release returns 1 while the count
becomes 0. -/
theorem c10_witness :
    (⟨0, 0xFFFF, 1⟩ : McsRwLock).decrement_readers_count.2 = 1 ∧
    (⟨0, 0xFFFF, 1⟩ : McsRwLock).decrement_readers_count.1.readers_count_ = 0 ∧
    (⟨0, 0xFFFF, 1⟩ : McsRwLock).decrement_readers_count.2 ≠ 0 :=
  (c10_readers_count_fetch_add ⟨0, 0xFFFF, 1⟩).2.2.2.1 (by decide)

end xct

end foedus
